import Mathlib

/-!
Verification of the molthold agentic-wallet runtime against its
natural-language specification.

The TypeScript sources are shallowly embedded: every definition below is a
direct translation of the corresponding function in the repository
(src/wallet/limits.ts, src/wallet/wallet.ts, src/wallet/keystore.ts,
src/logger/audit.ts, src/protocols/index.ts, src/agent/loop.ts).
JavaScript bigint values become Int, buffers become List Nat, thrown
WalletError values become the error side of Except, and the external
node crypto primitives (scrypt, AES-256-GCM) are idealised as injective
symbolic operations, which is the standard ideal-cipher reading of the
library calls the repository makes.
-/

-- ══════════════════════════════════════════════════════════════════════════
-- §1  Shared error type (src/wallet/types.ts, class WalletError)
-- ══════════════════════════════════════════════════════════════════════════

/-- WalletError from src/wallet/types.ts: a machine readable code plus a
human readable message. -/
structure WalletError where
  code : String
  msg : String
deriving DecidableEq, Repr

-- ══════════════════════════════════════════════════════════════════════════
-- §2  SpendingLimitGuard (src/wallet/limits.ts)
-- ══════════════════════════════════════════════════════════════════════════

/-- SpendingLimits from src/wallet/types.ts. Lamport amounts are JS
bigints, embedded as Int. -/
structure SpendingLimits where
  maxPerTxLamports : Int
  maxSessionLamports : Int
  allowedDestinations : Option (List String)
deriving DecidableEq, Repr

namespace SpendingLimitGuard

/-- validateConfig from limits.ts lines 115 to 135, run by the constructor. -/
def validateConfig (l : SpendingLimits) : Except WalletError Unit :=
  if l.maxPerTxLamports ≤ 0 then
    .error ⟨"INVALID_CONFIG", "maxPerTxLamports must be greater than 0."⟩
  else if l.maxSessionLamports ≤ 0 then
    .error ⟨"INVALID_CONFIG", "maxSessionLamports must be greater than 0."⟩
  else if l.maxPerTxLamports > l.maxSessionLamports then
    .error ⟨"INVALID_CONFIG", "maxPerTxLamports cannot exceed maxSessionLamports."⟩
  else if l.allowedDestinations = some [] then
    .error ⟨"INVALID_CONFIG", "allowedDestinations is an empty array."⟩
  else
    .ok ()

/-- check from limits.ts lines 30 to 68. The guard state is the current
sessionSpendLamports value; check never mutates it. The JS test
if not destination treats the empty string as missing, mirrored here.
The SOL rendering of the breaching values in the messages goes through
floating point toFixed in the source and is omitted from the embedded
message text. -/
def check (l : SpendingLimits) (sessionSpend : Int) (estimatedLamports : Int)
    (destination : Option String) : Except WalletError Unit :=
  if estimatedLamports > l.maxPerTxLamports then
    .error ⟨"LIMIT_BREACH",
      "Transaction of " ++ toString estimatedLamports ++
      " lamports exceeds per-tx limit of " ++ toString l.maxPerTxLamports ++ " lamports."⟩
  else if sessionSpend + estimatedLamports > l.maxSessionLamports then
    .error ⟨"LIMIT_BREACH",
      "Transaction would bring session spend to " ++
      toString (sessionSpend + estimatedLamports) ++
      " lamports, exceeding session cap of " ++
      toString l.maxSessionLamports ++ " lamports."⟩
  else
    match l.allowedDestinations with
    | none => .ok ()
    | some allowed =>
      match destination with
      | none =>
        .error ⟨"LIMIT_BREACH",
          "Destination allowlist is configured but no destination address was provided."⟩
      | some d =>
        if d = "" then
          .error ⟨"LIMIT_BREACH",
            "Destination allowlist is configured but no destination address was provided."⟩
        else if d ∈ allowed then
          .ok ()
        else
          .error ⟨"LIMIT_BREACH",
            "Destination " ++ d ++ " is not in the allowed destinations list."⟩

/-- record from limits.ts lines 74 to 79: returns the new session spend. -/
def record (sessionSpend : Int) (actualLamports : Int) : Except WalletError Int :=
  if actualLamports < 0 then
    .error ⟨"INVALID_CONFIG", "Cannot record negative lamport spend."⟩
  else
    .ok (sessionSpend + actualLamports)

/-- Boolean form of the breach condition claimed for check: the amount
exceeds the per-tx limit, or the projected session spend exceeds the cap,
or an allowlist is configured and the destination is missing (absent or
empty, matching JS falsiness) or not in the list. -/
def breachB (l : SpendingLimits) (sessionSpend : Int) (estimatedLamports : Int)
    (destination : Option String) : Bool :=
  (decide (estimatedLamports > l.maxPerTxLamports)) ||
  (decide (sessionSpend + estimatedLamports > l.maxSessionLamports)) ||
  (match l.allowedDestinations with
   | none => false
   | some allowed =>
     match destination with
     | none => true
     | some d => (decide (d = "")) || (decide (d ∉ allowed)))

/-- Cumulative sum of the first n amounts of a run of check plus record
pairs: after n successful record calls starting from 0 the session spend
is exactly this value. -/
def sumTo (amounts : List Int) (n : Nat) : Int :=
  ((amounts.take n).sum)

/-- Iterated record, mirroring a sequence of record calls threading the
session spend. -/
def runRecords (sessionSpend : Int) (amounts : List Int) : Except WalletError Int :=
  match amounts with
  | [] => .ok sessionSpend
  | a :: rest =>
    match record sessionSpend a with
    | .error e => .error e
    | .ok s => runRecords s rest

end SpendingLimitGuard

-- ══════════════════════════════════════════════════════════════════════════
-- §3  WalletClient transaction paths (src/wallet/wallet.ts)
-- ══════════════════════════════════════════════════════════════════════════

/-- Terminal statuses of the send and confirm engine (src/wallet/types.ts). -/
inductive TxStatus where
  | confirmed
  | failed
  | timeout
  | simulated
deriving DecidableEq, Repr

/-- TxResult from src/wallet/types.ts, reduced to the fields the wallet
layer inspects. -/
structure TxResult where
  signature : Option String
  status : TxStatus
deriving DecidableEq, Repr

/-- Observable wallet events: a guard check with its arguments and outcome,
one invocation of the closure scoped signer, and a guard record. -/
inductive WEv where
  | checked (est : Int) (dest : Option String) (ok : Bool)
  | signed
  | recorded (amount : Int)
deriving DecidableEq, Repr

/-- Abstraction of one run of sendAndConfirm (src/wallet/signer.ts). The
engine receives only the signer callback, never the guard, so its
observable footprint on the wallet is the number of signer invocations
(several, under retry) plus either a TxResult or a thrown WalletError
(the engine itself raises only SIGNING_FAILED). -/
structure EngineRun where
  result : Except WalletError TxResult
  signerCalls : Nat
deriving Repr

/-- Events contributed by one engine run: only signer invocations. -/
def engineTrace (er : EngineRun) : List WEv :=
  List.replicate er.signerCalls .signed

/-- signAndSendTransaction from wallet.ts lines 259 to 293. Returns the
result (or the propagated thrown error), the new session spend, and the
event trace. The guard check runs first and only when estimatedLamports
is positive; the engine runs next; record runs last and only when the
engine returned a confirmed result and estimatedLamports is positive. -/
def signAndSendTransaction (l : SpendingLimits) (sessionSpend : Int)
    (er : EngineRun) (estimatedLamports : Int) (destination : Option String) :
    Except WalletError TxResult × Int × List WEv :=
  if estimatedLamports > 0 then
    match SpendingLimitGuard.check l sessionSpend estimatedLamports destination with
    | .error e => (.error e, sessionSpend, [.checked estimatedLamports destination false])
    | .ok _ =>
      let tr := .checked estimatedLamports destination true :: engineTrace er
      match er.result with
      | .error e => (.error e, sessionSpend, tr)
      | .ok r =>
        if r.status = .confirmed then
          match SpendingLimitGuard.record sessionSpend estimatedLamports with
          | .error e => (.error e, sessionSpend, tr)
          | .ok s2 => (.ok r, s2, tr ++ [.recorded estimatedLamports])
        else
          (.ok r, sessionSpend, tr)
  else
    match er.result with
    | .error e => (.error e, sessionSpend, engineTrace er)
    | .ok r => (.ok r, sessionSpend, engineTrace er)

/-- Outcome of a getAccount probe in wallet.ts: the account exists, it is
missing (TokenAccountNotFoundError), or the RPC call failed. -/
inductive AccountProbe where
  | present
  | missing
  | failed
deriving DecidableEq, Repr

/-- External world of one sendToken call: the getMint answer, the probe of
the source associated token account inside getOrCreateTokenAccount, the
engine run of the account creation transaction, the probe of the
destination associated token account, and the engine run of the transfer
itself. -/
structure SendTokenWorld where
  mintInfo : Option Nat
  sourceProbe : AccountProbe
  createEngine : EngineRun
  destProbe : AccountProbe
  transferEngine : EngineRun
deriving Repr

/-- Tail of sendToken after the source account is settled (wallet.ts lines
223 to 252): probe the destination account, then submit the transfer via
signAndSendTransaction with the DEFAULT estimatedLamports of 0 and no
destination argument. -/
def sendTokenSubmit (l : SpendingLimits) (sessionSpend : Int) (w : SendTokenWorld) :
    Except WalletError TxResult × Int × List WEv :=
  match w.destProbe with
  | .failed => (.error ⟨"RPC_ERROR", "Failed to check destination token account."⟩,
      sessionSpend, [])
  | _ => signAndSendTransaction l sessionSpend w.transferEngine 0 none

/-- sendToken from wallet.ts lines 208 to 253, with the inlined
getOrCreateTokenAccount call of lines 150 to 180 for the source account:
a missing source account triggers a creation transaction submitted with
an estimated spend of 5000 lamports and no destination. -/
def sendToken (l : SpendingLimits) (sessionSpend : Int) (amount : Int)
    (w : SendTokenWorld) : Except WalletError TxResult × Int × List WEv :=
  if amount ≤ 0 then
    (.error ⟨"INVALID_CONFIG", "amount must be greater than 0."⟩, sessionSpend, [])
  else
    match w.mintInfo with
    | none => (.error ⟨"RPC_ERROR", "Failed to fetch mint info."⟩, sessionSpend, [])
    | some _ =>
      match w.sourceProbe with
      | .failed => (.error ⟨"RPC_ERROR", "Failed to check token account."⟩, sessionSpend, [])
      | .present => sendTokenSubmit l sessionSpend w
      | .missing =>
        match signAndSendTransaction l sessionSpend w.createEngine 5000 none with
        | (.error e, s2, tr) => (.error e, s2, tr)
        | (.ok r, s2, tr) =>
          if r.status = .confirmed then
            match sendTokenSubmit l s2 w with
            | (res2, s3, tr2) => (res2, s3, tr ++ tr2)
          else
            (.error ⟨"RPC_ERROR", "Failed to create token account."⟩, s2, tr)

-- ══════════════════════════════════════════════════════════════════════════
-- §4  Keystore codec (src/wallet/keystore.ts)
-- ══════════════════════════════════════════════════════════════════════════

/-- Idealised scrypt output (keystore.ts deriveKey, lines 49 to 56): the
derived key is determined by, and only by, the password and the salt; the
symbolic model keeps exactly that dependency. -/
structure DerivedKey where
  password : String
  salt : List Nat
deriving DecidableEq, Repr

/-- Idealised AES-256-GCM authentication tag: it binds the key, the IV and
the ciphertext, which is precisely the authenticity guarantee the code
relies on. Real tags are 16 bytes, so the byte-length test of
keystore.ts line 184 always passes on tags the library produced. -/
structure AuthTag where
  key : DerivedKey
  iv : List Nat
  ciphertext : List Nat
deriving DecidableEq, Repr

/-- Idealised GCM encryption: the ciphertext is kept symbolic (carried as
the plaintext bytes) and the tag binds key, IV and ciphertext. -/
def aesGcmEncrypt (key : DerivedKey) (iv : List Nat) (plain : List Nat) :
    List Nat × AuthTag :=
  (plain, ⟨key, iv, plain⟩)

/-- Idealised GCM decryption: authentication succeeds exactly when the tag
was produced for this key, this IV and this ciphertext. -/
def aesGcmDecrypt (key : DerivedKey) (iv : List Nat) (tag : AuthTag)
    (ct : List Nat) : Option (List Nat) :=
  if tag = ⟨key, iv, ct⟩ then some ct else none

/-- Encrypted payload of a keystore file (src/wallet/types.ts). -/
structure EncryptedPayload where
  ciphertext : List Nat
  iv : List Nat
  authTag : AuthTag
  salt : List Nat
  algorithm : String
  kdf : String
deriving DecidableEq, Repr

/-- KeystoreFile from src/wallet/types.ts. -/
structure KeystoreFile where
  version : Nat
  publicKey : String
  encrypted : EncryptedPayload
deriving DecidableEq, Repr

/-- A solana web3 Keypair: the 64 byte secret (32 byte seed followed by
the 32 public key bytes). -/
structure Keypair where
  secretKey : List Nat
deriving DecidableEq, Repr

/-- The base58 rendering of the public key of a keypair: the public key is
the trailing 32 bytes of the secret, and base58 is an injective encoding,
idealised as toString. -/
def Keypair.publicKeyBase58 (kp : Keypair) : String :=
  toString (kp.secretKey.drop 32)

/-- deriveKey from keystore.ts lines 49 to 56. -/
def deriveKey (password : String) (salt : List Nat) : DerivedKey :=
  ⟨password, salt⟩

/-- Result of createKeystore together with the exit state of the three
sensitive buffers it allocates: a live flag means the buffer still holds
secret material when the function returns or throws. -/
structure CreateResult where
  outcome : Except WalletError KeystoreFile
  plainLive : Bool
  keyLive : Bool
  saltLive : Bool
deriving Repr

/-- createKeystore from keystore.ts lines 76 to 130. The fresh salt and IV
sampled by randomBytes are parameters. Line 98 zeroes the plaintext right
after encryption and the finally block of lines 125 to 129 zeroes the
derived key, the salt and the IV on every exit of the try block, so every
modelled exit leaves all three buffers dead. A failing writeFileSync
throws after line 98, hence with the same buffer state as the success
exit. -/
def createKeystore (kp : Keypair) (password : String) (salt iv : List Nat) :
    CreateResult :=
  if password.length < 8 then
    { outcome := .error ⟨"INVALID_CONFIG",
        "Keystore password must be at least 8 characters."⟩,
      plainLive := false, keyLive := false, saltLive := false }
  else
    let derivedKey := deriveKey password salt
    let sealed := aesGcmEncrypt derivedKey iv kp.secretKey
    { outcome := .ok
        { version := 1,
          publicKey := kp.publicKeyBase58,
          encrypted :=
            { ciphertext := sealed.1, iv := iv, authTag := sealed.2,
              salt := salt, algorithm := "aes-256-gcm", kdf := "scrypt" } },
      plainLive := false, keyLive := false, saltLive := false }

/-- Result of loadKeystore together with the exit state of the derived key
buffer and of the decrypted plaintext buffer. -/
structure LoadResult where
  outcome : Except WalletError Keypair
  keyLive : Bool
  plainLive : Bool
deriving Repr

/-- The single auth failure message of keystore.ts lines 198 to 202, used
for a wrong password and for a tampered ciphertext alike. -/
def invalidKeystoreDecryptMsg : String :=
  "Keystore decryption failed. Wrong password or keystore has been tampered with."

/-- loadKeystore from keystore.ts lines 141 to 226. A missing or
unparseable file is the none case. The finally block of line 204 zeroes
the derived key on every exit after derivation; NOTHING below line 205
zeroes the plaintext buffer, so on the three exits that follow a
successful decryption (bad length, public key mismatch, success) the
plaintext buffer stays live. -/
def loadKeystore (file : Option KeystoreFile) (password : String) : LoadResult :=
  match file with
  | none =>
    ⟨.error ⟨"INVALID_KEYSTORE", "Keystore file not found."⟩, false, false⟩
  | some ks =>
    if ks.version ≠ 1 then
      ⟨.error ⟨"INVALID_KEYSTORE", "Unsupported keystore version. Expected 1."⟩,
       false, false⟩
    else if ks.encrypted.salt.length ≠ 32 then
      ⟨.error ⟨"INVALID_KEYSTORE", "Keystore salt has unexpected length."⟩,
       false, false⟩
    else if ks.encrypted.iv.length ≠ 16 then
      ⟨.error ⟨"INVALID_KEYSTORE", "Keystore IV has unexpected length."⟩,
       false, false⟩
    else
      let derivedKey := deriveKey password ks.encrypted.salt
      match aesGcmDecrypt derivedKey ks.encrypted.iv ks.encrypted.authTag
          ks.encrypted.ciphertext with
      | none =>
        ⟨.error ⟨"INVALID_KEYSTORE", invalidKeystoreDecryptMsg⟩, false, false⟩
      | some plaintext =>
        if plaintext.length ≠ 64 then
          ⟨.error ⟨"INVALID_KEYSTORE",
            "Decrypted key has unexpected length. Expected 64 bytes."⟩,
           false, true⟩
        else
          let keypair : Keypair := ⟨plaintext⟩
          if keypair.publicKeyBase58 ≠ ks.publicKey then
            ⟨.error ⟨"INVALID_KEYSTORE",
              "Decrypted public key does not match stored public key."⟩,
             false, true⟩
          else
            ⟨.ok keypair, false, true⟩

/-- The keystore record createKeystore writes for a given keypair,
passphrase, salt and IV, spelled out for use in proofs. -/
def writtenKeystore (kp : Keypair) (password : String) (salt iv : List Nat) :
    KeystoreFile :=
  { version := 1
    publicKey := kp.publicKeyBase58
    encrypted :=
      { ciphertext := kp.secretKey
        iv := iv
        authTag := ⟨⟨password, salt⟩, iv, kp.secretKey⟩
        salt := salt
        algorithm := "aes-256-gcm"
        kdf := "scrypt" } }

/-- Prefix test on character lists, used to define the substring test. -/
def lpre : List Char → List Char → Bool
  | [], _ => true
  | _ :: _, [] => false
  | a :: as, b :: bs => (a == b) && lpre as bs

/-- Substring test on character lists. -/
def linf (pat : List Char) : List Char → Bool
  | [] => lpre pat []
  | c :: t => lpre pat (c :: t) || linf pat t

/-- Substring test on strings. -/
def strContainsSub (hay pat : String) : Bool :=
  linf pat.data hay.data

-- ══════════════════════════════════════════════════════════════════════════
-- §5  AuditDb details sanitiser (src/logger/audit.ts)
-- ══════════════════════════════════════════════════════════════════════════

-- JSON-like detail trees, as mutual inductives so that all recursions
-- below are structural. Scalars are null, booleans, strings and numbers;
-- the two structured forms are arrays and objects.
mutual

/-- A JSON value of a details tree. -/
inductive Jx where
  | nullv
  | boolv (b : Bool)
  | strv (s : String)
  | numv (n : Int)
  | arr (elems : JxList)
  | obj (fields : JxFields)

inductive JxList where
  | nil
  | cons (hd : Jx) (tl : JxList)

inductive JxFields where
  | fnil
  | fcons (key : String) (val : Jx) (tl : JxFields)

end

/-- The nine anchored case-insensitive patterns of
FORBIDDEN_FIELD_PATTERNS (audit.ts lines 70 to 80): an anchored
case-insensitive regex test on a field name is exact lowercase equality. -/
def FORBIDDEN_FIELD_NAMES : List String :=
  ["secretkey", "secret_key", "privatekey", "private_key", "keypair",
   "seed", "mnemonic", "keymaterial", "key_material"]

/-- ASCII lowercase of a character, the case folding the i flag of the
anchored regexes performs on ASCII field names. -/
def lowerChar (c : Char) : Char :=
  if 'A' ≤ c ∧ c ≤ 'Z' then Char.ofNat (c.toNat + 32) else c

/-- ASCII lowercase of a string. -/
def lowerStr (s : String) : String :=
  ⟨s.data.map lowerChar⟩

/-- Does a field name match one of the forbidden patterns. -/
def forbiddenKey (k : String) : Bool :=
  FORBIDDEN_FIELD_NAMES.contains (lowerStr k)

-- sanitiseDetails from audit.ts lines 236 to 260, together with the two
-- value-position behaviours it applies: a field holding an object is
-- sanitised recursively; a field holding an array is shallow mapped, with
-- plain-object ELEMENTS sanitised and every other element, arrays included,
-- kept unchanged; scalars are kept. The function builds a fresh tree.
mutual

/-- Value position of the sanitiser: recurse into objects, shallow map
arrays, keep scalars. -/
def sanitiseValue : Jx → Jx
  | .obj o => .obj (sanitiseDetails o)
  | .arr l => .arr (sanitiseArr l)
  | v => v

def sanitiseArr : JxList → JxList
  | .nil => .nil
  | .cons x tl =>
    .cons (match x with
           | .obj o => .obj (sanitiseDetails o)
           | other => other)
          (sanitiseArr tl)

def sanitiseDetails : JxFields → JxFields
  | .fnil => .fnil
  | .fcons k v tl =>
    if forbiddenKey k then sanitiseDetails tl
    else .fcons k (sanitiseValue v) (sanitiseDetails tl)

end

/-- The details tree that AuditDb.insert serialises into details_json
(audit.ts lines 137 to 151): the sanitised input tree. -/
def storedDetails (details : JxFields) : JxFields :=
  sanitiseDetails details

-- Does the tree contain, at any depth through objects and arrays alike,
-- a field whose name matches a forbidden pattern.
mutual

/-- Forbidden field name anywhere below a value. -/
def hasForbiddenValue : Jx → Bool
  | .obj o => hasForbiddenFields o
  | .arr l => hasForbiddenList l
  | _ => false

def hasForbiddenList : JxList → Bool
  | .nil => false
  | .cons x tl => hasForbiddenValue x || hasForbiddenList tl

def hasForbiddenFields : JxFields → Bool
  | .fnil => false
  | .fcons k v tl => forbiddenKey k || hasForbiddenValue v || hasForbiddenFields tl

end

-- Is the tree free of arrays nested directly inside arrays.
mutual

/-- No array directly inside an array, below a value. -/
def flatValue : Jx → Bool
  | .obj o => flatFields o
  | .arr l => flatList l
  | _ => true

def flatList : JxList → Bool
  | .nil => true
  | .cons x tl =>
    (match x with
     | .arr _ => false
     | _ => flatValue x) && flatList tl

def flatFields : JxFields → Bool
  | .fnil => true
  | .fcons _ v tl => flatValue v && flatFields tl

end

-- ══════════════════════════════════════════════════════════════════════════
-- §6  SwapAdapter registry (src/protocols/index.ts)
-- ══════════════════════════════════════════════════════════════════════════

/-- Quote from src/protocols/types.ts, reduced to the fields getBestQuote
inspects or the claims mention. -/
structure Quote where
  inputMint : String
  outputMint : String
  inAmount : Int
  outAmount : Int
  provider : String
deriving DecidableEq, Repr

/-- ProtocolError from src/protocols/types.ts. -/
structure ProtocolError where
  code : String
  msg : String
deriving DecidableEq, Repr

/-- The join of error strings with the separator used at line 66. -/
def joinSemi : List String → String
  | [] => ""
  | [s] => s
  | s :: rest => s ++ "; " ++ joinSemi rest

/-- getBestQuote from protocols/index.ts lines 48 to 81. The two adapter
quote calls settle independently (Promise.allSettled); the settled values
are kept in enumeration order, jupiter first then orca; with no success
the rejection reasons are aggregated into one QUOTE_FAILED; otherwise a
reduce keeps the earlier quote unless the later one is strictly larger. -/
def getBestQuote (jupiter orca : Except String Quote) :
    Except ProtocolError (Quote × String) :=
  let successes : List (Quote × String) :=
    (match jupiter with
     | .ok q => [(q, "jupiter")]
     | .error _ => []) ++
    (match orca with
     | .ok q => [(q, "orca")]
     | .error _ => [])
  match successes with
  | [] =>
    let errs : List String :=
      (match jupiter with
       | .error m => [m]
       | .ok _ => []) ++
      (match orca with
       | .error m => [m]
       | .ok _ => [])
    .error ⟨"QUOTE_FAILED", "All adapters failed to quote: " ++ joinSemi errs⟩
  | first :: rest =>
    .ok (rest.foldl (fun a b => if a.1.outAmount ≥ b.1.outAmount then a else b) first)

-- ══════════════════════════════════════════════════════════════════════════
-- §7  AgentLoop (src/agent/loop.ts)
-- ══════════════════════════════════════════════════════════════════════════

/-- Audit event kinds the loop emits (src/logger/audit.ts). -/
inductive AuditEventType where
  | agent_start
  | agent_stop
  | agent_noop
  | agent_action
  | tx_confirmed
  | tx_failed
  | tx_timeout
  | agent_error
  | limit_breach
deriving DecidableEq, Repr

/-- One audit row as the loop writes it: the event kind, the reason field
of the details blob when one is written, and the tick counter value. -/
structure AuditEntry where
  event : AuditEventType
  reason : Option String
  tick : Nat
deriving DecidableEq, Repr

/-- A thrown JS error as the catch block of the tick sees it: the message
and the optional code field. -/
structure AgErr where
  msg : String
  code : Option String
deriving DecidableEq, Repr

/-- A strategy action (src/agent/types.ts): noop or an executable kind. -/
inductive AgAction where
  | noop (rationale : String)
  | act (kind : String) (rationale : String)
deriving DecidableEq, Repr

/-- The per-tick external world: the remote stop signal time the audit
query of loop.ts lines 154 to 164 resolves (details request_ts, falling
back to the row timestamp), and the outcomes of the gather, decide and
execute phases, each of which may throw. -/
structure TickOracle where
  stopSignalTime : Option Int
  gather : Except AgErr Int
  decide : Except AgErr AgAction
  execute : Except AgErr (Option TxResult)

/-- Status values of AgentLoopState. -/
inductive LoopStatus where
  | idle
  | running
  | stopped
  | error
deriving DecidableEq, Repr

/-- Observable loop state: the stop FLAG (this.stopped, the condition of
the while loop in start), the status field, the tick counter, lastError,
startedAt in epoch milliseconds, and the audit rows written so far. -/
structure LoopSt where
  stopped : Bool
  status : LoopStatus
  tickCount : Nat
  lastError : Option String
  startedAtMs : Int
  log : List AuditEntry
deriving DecidableEq, Repr

/-- Event classification of the catch block, loop.ts line 280. -/
def classifyError (e : AgErr) : AuditEventType :=
  if e.code = some ("LIMIT_BREACH") then .limit_breach else .agent_error

/-- The try block of the tick, loop.ts lines 187 to 267: gather state, let
the strategy decide, emit agent_noop and return on a noop, otherwise
execute and map the result to its audit event (confirmed, failed, and
everything else, the timeout and simulated statuses, to tx_timeout). Any
phase may throw, which surfaces as the error case. -/
def tickBody (st : LoopSt) (inp : TickOracle) : Except AgErr LoopSt :=
  match inp.gather with
  | .error e => .error e
  | .ok _sol =>
    match inp.decide with
    | .error e => .error e
    | .ok (.noop _r) =>
      .ok { st with log := st.log ++ [⟨.agent_noop, none, st.tickCount⟩] }
    | .ok (.act _k _r) =>
      match inp.execute with
      | .error e => .error e
      | .ok result =>
        let ev := match result with
          | none => AuditEventType.agent_action
          | some r =>
            match r.status with
            | .confirmed => AuditEventType.tx_confirmed
            | .failed => AuditEventType.tx_failed
            | _ => AuditEventType.tx_timeout
        .ok { st with log := st.log ++ [⟨ev, none, st.tickCount⟩] }

/-- The crash isolation wrapper, loop.ts lines 268 to 294: a thrown error
is caught, lastError records the message, and a limit_breach or
agent_error row is written; status and the stop flag are untouched. -/
def tickTry (st : LoopSt) (inp : TickOracle) : LoopSt :=
  match tickBody st inp with
  | .ok st2 => st2
  | .error e =>
    { st with lastError := some e.msg,
              log := st.log ++ [⟨classifyError e, some e.msg, st.tickCount⟩] }

/-- One tick, loop.ts lines 147 to 295: increment the counter, then the
remote stop check of lines 153 to 185 (a signal later than startedAt
minus 2000 ms sets this.status to stopped, writes the agent_stop row with
reason Remote stop signal received, and returns; NOTE that line 177 sets
only this.status and never this.stopped), then the crash isolated body. -/
def tick (st : LoopSt) (inp : TickOracle) : LoopSt :=
  let st1 := { st with tickCount := st.tickCount + 1 }
  match inp.stopSignalTime with
  | some sigTime =>
    if sigTime > st1.startedAtMs - 2000 then
      { st1 with status := .stopped,
                 log := st1.log ++
                   [⟨.agent_stop, some ("Remote stop signal received"), st1.tickCount⟩] }
    else tickTry st1 inp
  | none => tickTry st1 inp

/-- The driver loop of start, loop.ts lines 98 to 103: while the stop FLAG
is unset, run a tick. The fuel bounds how many iterations are observed;
the per-tick worlds are indexed by the tick counter. -/
def runLoop (inputs : Nat → TickOracle) : Nat → LoopSt → LoopSt
  | 0, st => st
  | fuel + 1, st =>
    if st.stopped then st
    else runLoop inputs fuel (tick st (inputs st.tickCount))

/-- Initial state of a freshly started loop (start, lines 82 to 91),
started at epoch millisecond 0. -/
def startedLoopSt : LoopSt :=
  { stopped := false, status := .running, tickCount := 0,
    lastError := none, startedAtMs := 0, log := [] }

/-- A world whose audit db holds a system_stop_request with signal time
1000, later than startedAt, and whose strategy always answers noop. -/
def stopSignalWorld : Nat → TickOracle :=
  fun _ => ⟨some 1000, .ok 0, .ok (.noop ("idle")), .ok none⟩

/-- A details tree with a forbidden field inside an array nested inside
an array: fields a holding the array [[ object with field secretKey ]]. -/
def c7badTree : JxFields :=
  .fcons ("a")
    (.arr (.cons
      (.arr (.cons (.obj (.fcons ("secretKey") (.strv ("x")) .fnil)) .nil))
      .nil))
    .fnil

/-- A nested-array-free details tree holding forbidden fields at the top
level, inside a nested object, and inside an object directly in an array. -/
def c7goodTree : JxFields :=
  .fcons ("a") (.numv 1)
    (.fcons ("secretKey") (.strv ("x"))
      (.fcons ("nested") (.obj (.fcons ("private_key") (.strv ("y")) .fnil))
        (.fcons ("arr")
          (.arr (.cons (.obj (.fcons ("seed") (.strv ("z")) .fnil)) .nil))
          .fnil)))

-- ══════════════════════════════════════════════════════════════════════════
-- Theorems
-- ══════════════════════════════════════════════════════════════════════════

namespace SpendingLimitGuard

lemma check_ok_iff (l : SpendingLimits) (spend est : Int) (dest : Option String) :
    check l spend est dest = .ok () ↔ breachB l spend est dest = false := by
  unfold check breachB
  rcases hA : l.allowedDestinations with _ | allowed <;>
    rcases dest with _ | d <;> simp only [hA]
  · by_cases h1 : est > l.maxPerTxLamports <;>
      by_cases h2 : spend + est > l.maxSessionLamports <;>
      simp [h1, h2]
  · by_cases h1 : est > l.maxPerTxLamports <;>
      by_cases h2 : spend + est > l.maxSessionLamports <;>
      simp [h1, h2]
  · by_cases h1 : est > l.maxPerTxLamports <;>
      by_cases h2 : spend + est > l.maxSessionLamports <;>
      simp [h1, h2]
  · by_cases h1 : est > l.maxPerTxLamports <;>
      by_cases h2 : spend + est > l.maxSessionLamports <;>
      by_cases hd : d = "" <;>
      by_cases hc : d ∈ allowed <;>
      simp [h1, h2, hd, hc]

lemma check_code_cases (l : SpendingLimits) (spend est : Int) (dest : Option String) :
    check l spend est dest = .ok () ∨
    ∃ m, check l spend est dest = .error ⟨"LIMIT_BREACH", m⟩ := by
  unfold check
  by_cases h1 : est > l.maxPerTxLamports
  · rw [if_pos h1]; right; exact ⟨_, rfl⟩
  · rw [if_neg h1]
    by_cases h2 : spend + est > l.maxSessionLamports
    · rw [if_pos h2]; right; exact ⟨_, rfl⟩
    · rw [if_neg h2]
      rcases l.allowedDestinations with _ | allowed <;> dsimp only
      · left; rfl
      · rcases dest with _ | d <;> dsimp only
        · right; exact ⟨_, rfl⟩
        · by_cases hd : d = ""
          · rw [if_pos hd]; right; exact ⟨_, rfl⟩
          · rw [if_neg hd]
            by_cases hc : d ∈ allowed
            · rw [if_pos hc]; left; rfl
            · rw [if_neg hc]; right; exact ⟨_, rfl⟩

lemma check_err_of_breach (l : SpendingLimits) (spend est : Int) (dest : Option String)
    (h : breachB l spend est dest = true) :
    ∃ e, check l spend est dest = .error e ∧ e.code = "LIMIT_BREACH" := by
  rcases check_code_cases l spend est dest with hok | ⟨m, herr⟩
  · have hfalse := (check_ok_iff l spend est dest).mp hok
    rw [h] at hfalse
    cases hfalse
  · exact ⟨⟨"LIMIT_BREACH", m⟩, herr, rfl⟩

lemma sumTo_succ (amounts : List Int) (n : Nat) (hn : n < amounts.length) :
    sumTo amounts (n + 1) = sumTo amounts n + amounts.getD n 0 := by
  unfold sumTo
  rw [List.take_succ, List.sum_append]
  have hg : amounts[n]? = some amounts[n] := List.getElem?_eq_getElem hn
  rw [hg]
  have hgd : amounts.getD n 0 = amounts[n] := List.getD_eq_getElem amounts 0 hn
  rw [hgd]
  simp

lemma runRecords_sum (amounts : List Int) (h : ∀ a ∈ amounts, 0 ≤ a) (spend : Int) :
    runRecords spend amounts = .ok (spend + amounts.sum) := by
  induction amounts generalizing spend with
  | nil => simp [runRecords]
  | cons a rest ih =>
    have ha : 0 ≤ a := h a (List.mem_cons_self a rest)
    have hrest : ∀ x ∈ rest, 0 ≤ x := fun x hx => h x (List.mem_cons_of_mem a hx)
    simp only [runRecords, record, if_neg (by omega : ¬ a < 0)]
    rw [ih hrest]
    simp only [List.sum_cons, Except.ok.injEq]
    ring

end SpendingLimitGuard

/-- Claim C2: for a guard constructed with valid limits P and S, check
fails with a LIMIT_BREACH error exactly when the amount exceeds P, or the
projected session spend exceeds S, or an allowlist is configured and the
destination is missing or not in it; otherwise it succeeds. For every
sequence of check plus record pairs (nonnegative amounts, no allowlist),
the session spend after n pairs is the prefix sum, the first index i at
which the cumulative sum exceeds S makes check fail with LIMIT_BREACH,
and every check before i succeeds exactly when its amount is at most P. -/
theorem c2_spending_guard (l : SpendingLimits)
    (hvalid : SpendingLimitGuard.validateConfig l = .ok ()) :
    (∀ spend est dest,
       (SpendingLimitGuard.check l spend est dest = .ok () ↔
         SpendingLimitGuard.breachB l spend est dest = false) ∧
       (SpendingLimitGuard.breachB l spend est dest = true →
         ∃ e, SpendingLimitGuard.check l spend est dest = .error e ∧
              e.code = "LIMIT_BREACH")) ∧
    (∀ amounts : List Int, (∀ a ∈ amounts, 0 ≤ a) →
       SpendingLimitGuard.runRecords 0 amounts = .ok amounts.sum) ∧
    (∀ (amounts : List Int) (i : Nat),
       l.allowedDestinations = none →
       (∀ a ∈ amounts, 0 ≤ a) →
       i < amounts.length →
       SpendingLimitGuard.sumTo amounts (i + 1) > l.maxSessionLamports →
       (∀ k, k < i → SpendingLimitGuard.sumTo amounts (k + 1) ≤ l.maxSessionLamports) →
       (∃ e, SpendingLimitGuard.check l (SpendingLimitGuard.sumTo amounts i)
               (amounts.getD i 0) none = .error e ∧ e.code = "LIMIT_BREACH") ∧
       (∀ j, j < i →
          (SpendingLimitGuard.check l (SpendingLimitGuard.sumTo amounts j)
             (amounts.getD j 0) none = .ok () ↔
           amounts.getD j 0 ≤ l.maxPerTxLamports))) := by
  refine ⟨?_, ?_, ?_⟩
  · intro spend est dest
    exact ⟨SpendingLimitGuard.check_ok_iff l spend est dest,
           SpendingLimitGuard.check_err_of_breach l spend est dest⟩
  · intro amounts h
    have := SpendingLimitGuard.runRecords_sum amounts h 0
    simpa using this
  · intro amounts i hallow hnn hi hexceed hprior
    constructor
    · apply SpendingLimitGuard.check_err_of_breach
      have hsum := SpendingLimitGuard.sumTo_succ amounts i hi
      simp only [SpendingLimitGuard.breachB, hallow, Bool.or_eq_true,
        Bool.or_false, decide_eq_true_eq]
      omega
    · intro j hj
      have hjlen : j < amounts.length := lt_trans hj hi
      have hsum := SpendingLimitGuard.sumTo_succ amounts j hjlen
      have hsess : SpendingLimitGuard.sumTo amounts j + amounts.getD j 0 ≤
          l.maxSessionLamports := by
        have := hprior j hj
        omega
      rw [SpendingLimitGuard.check_ok_iff]
      simp only [SpendingLimitGuard.breachB, hallow, Bool.or_eq_false_iff,
        Bool.or_false, decide_eq_false_iff_not, not_lt]
      omega

/-- Witness for claim C2 at the guard of spec scenarios 2 and 3:
P equal to 100000000 and S equal to 500000000, amounts five times
100000000 followed by 1; the first cumulative overflow is at index 5 and
all earlier checks succeed. -/
theorem c2_spending_guard_witness :
    SpendingLimitGuard.validateConfig
        ⟨100000000, 500000000, none⟩ = .ok () ∧
    (∃ e, SpendingLimitGuard.check ⟨100000000, 500000000, none⟩
        (SpendingLimitGuard.sumTo [100000000, 100000000, 100000000, 100000000, 100000000, 1] 5)
        ([100000000, 100000000, 100000000, 100000000, 100000000, 1].getD 5 0) none
          = .error e ∧ e.code = "LIMIT_BREACH") := by
  constructor
  · rfl
  · exact ((c2_spending_guard ⟨100000000, 500000000, none⟩ rfl).2.2
      [100000000, 100000000, 100000000, 100000000, 100000000, 1] 5 rfl
      (by decide) (by decide) (by decide) (by decide)).1

/-- Claim C3: in signAndSendTransaction with positive estimatedLamports the
guard check runs first and must succeed before any signer invocation; on a
check failure the thrown error propagates and neither signing nor record
happens; after a successful check the engine runs, and record fires with
the new session spend exactly when the engine returned a confirmed result;
with estimatedLamports zero the guard is bypassed entirely. -/
theorem c3_sign_and_send_ordering (l : SpendingLimits) (spend : Int)
    (er : EngineRun) (est : Int) (dest : Option String) :
    (est > 0 →
      (∀ e, SpendingLimitGuard.check l spend est dest = .error e →
        signAndSendTransaction l spend er est dest =
          (.error e, spend, [.checked est dest false])) ∧
      (SpendingLimitGuard.check l spend est dest = .ok () →
        (∀ r, er.result = .ok r → r.status = .confirmed →
          signAndSendTransaction l spend er est dest =
            (.ok r, spend + est,
             .checked est dest true :: engineTrace er ++ [.recorded est])) ∧
        (∀ r, er.result = .ok r → r.status ≠ .confirmed →
          signAndSendTransaction l spend er est dest =
            (.ok r, spend, .checked est dest true :: engineTrace er)) ∧
        (∀ e, er.result = .error e →
          signAndSendTransaction l spend er est dest =
            (.error e, spend, .checked est dest true :: engineTrace er)) ∧
        (WEv.recorded est ∈ (signAndSendTransaction l spend er est dest).2.2 ↔
          ∃ r, er.result = .ok r ∧ r.status = .confirmed))) ∧
    (est = 0 →
      signAndSendTransaction l spend er est dest = (er.result, spend, engineTrace er)) ∧
    (∀ ev ∈ engineTrace er, ev = WEv.signed) := by
  refine ⟨?_, ?_, ?_⟩
  · intro hpos
    constructor
    · intro e he
      simp [signAndSendTransaction, if_pos hpos, he]
    · intro hok
      have hrec : SpendingLimitGuard.record spend est =
          .ok (spend + est) := by
        unfold SpendingLimitGuard.record
        rw [if_neg (by omega : ¬ est < 0)]
      refine ⟨?_, ?_, ?_, ?_⟩
      · intro r hr hc
        simp [signAndSendTransaction, if_pos hpos, hok, hr, hc, hrec]
      · intro r hr hc
        simp [signAndSendTransaction, if_pos hpos, hok, hr, hc]
      · intro e he
        simp [signAndSendTransaction, if_pos hpos, hok, he]
      · cases hres : er.result with
        | error e =>
          simp [signAndSendTransaction, if_pos hpos, hok, hres, engineTrace,
            List.mem_replicate]
        | ok r =>
          by_cases hst : r.status = .confirmed
          · simp [signAndSendTransaction, if_pos hpos, hok, hres, hst, hrec,
              engineTrace, List.mem_replicate]
          · simp [signAndSendTransaction, if_pos hpos, hok, hres, hst,
              engineTrace, List.mem_replicate]
  · intro h0
    subst h0
    cases hres : er.result with
    | error e => simp [signAndSendTransaction, hres]
    | ok r => simp [signAndSendTransaction, hres]
  · intro ev hev
    unfold engineTrace at hev
    exact (List.eq_of_mem_replicate hev)

/-- Witness for claim C3: guard with per-tx cap 1000 and session cap 5000,
estimate 100, a confirmed engine run with one signer call; the trace is
check, sign, record and the session spend moves from 0 to 100. -/
theorem c3_sign_and_send_ordering_witness :
    signAndSendTransaction ⟨1000, 5000, none⟩ 0
        ⟨.ok ⟨some ("sig"), .confirmed⟩, 1⟩ 100 none =
      (.ok ⟨some ("sig"), .confirmed⟩, 100,
       [.checked 100 none true, .signed, .recorded 100]) := by
  have h := ((c3_sign_and_send_ordering ⟨1000, 5000, none⟩ 0
      ⟨.ok ⟨some ("sig"), .confirmed⟩, 1⟩ 100 none).1 (by decide)).2 (by rfl)
  have h2 := h.1 ⟨some ("sig"), .confirmed⟩ rfl rfl
  simpa [engineTrace] using h2

/-- Claim C10 counterexample: a sendToken call CAN consult the guard and
CAN raise a LIMIT_BREACH error and CAN change the session spend, because a
missing source associated token account makes getOrCreateTokenAccount
submit a creation transaction with an estimated spend of 5000 lamports.
With an allowlist configured that inner check fails with LIMIT_BREACH;
without one, a confirmed creation records 5000 lamports of session spend. -/
theorem c10_send_token_counterexample :
    (∃ e, (sendToken ⟨10000, 10000, some ["ALLOWED"]⟩ 0 1
        ⟨some 6, .missing, ⟨.ok ⟨some ("sig"), .confirmed⟩, 1⟩, .present,
         ⟨.ok ⟨some ("sig"), .confirmed⟩, 1⟩⟩).1 = .error e ∧
       e.code = "LIMIT_BREACH") ∧
    (sendToken ⟨10000, 10000, none⟩ 0 1
        ⟨some 6, .missing, ⟨.ok ⟨some ("sig"), .confirmed⟩, 1⟩, .present,
         ⟨.ok ⟨some ("sig"), .confirmed⟩, 1⟩⟩).2.1 = 5000 ∧
    (5000 : Int) ≠ 0 := by
  refine ⟨⟨⟨"LIMIT_BREACH",
    "Destination allowlist is configured but no destination address was provided."⟩,
    ?_, rfl⟩, ?_, by decide⟩
  · rfl
  · rfl

/-- Claim C10 as amended: when the source associated token account already
exists, the transfer is submitted through signAndSendTransaction with the
default estimatedLamports of 0, so the guard is never consulted: the trace
holds only signer events, the session spend is unchanged, and no
LIMIT_BREACH error can be produced (the engine itself raises only
SIGNING_FAILED, captured by the hypothesis on transferEngine). -/
theorem c10_send_token_amended (l : SpendingLimits) (spend amount : Int)
    (w : SendTokenWorld) (hsrc : w.sourceProbe = .present)
    (heng : ∀ e, w.transferEngine.result = .error e → e.code ≠ "LIMIT_BREACH") :
    (∀ ev ∈ (sendToken l spend amount w).2.2, ev = WEv.signed) ∧
    (sendToken l spend amount w).2.1 = spend ∧
    (∀ e, (sendToken l spend amount w).1 = .error e → e.code ≠ "LIMIT_BREACH") := by
  unfold sendToken
  by_cases hneg : amount ≤ 0
  · simp [hneg]
  · rw [if_neg hneg]
    cases hmint : w.mintInfo with
    | none => simp
    | some d =>
      rw [hsrc]
      unfold sendTokenSubmit
      cases hdest : w.destProbe with
      | failed => simp
      | present =>
        cases hres : w.transferEngine.result with
        | error e =>
          simp [signAndSendTransaction, hres, engineTrace, List.mem_replicate]
          exact heng e hres
        | ok r =>
          simp [signAndSendTransaction, hres, engineTrace, List.mem_replicate]
      | missing =>
        cases hres : w.transferEngine.result with
        | error e =>
          simp [signAndSendTransaction, hres, engineTrace, List.mem_replicate]
          exact heng e hres
        | ok r =>
          simp [signAndSendTransaction, hres, engineTrace, List.mem_replicate]

/-- Witness for the amended claim C10: with an existing source account and
a confirmed transfer engine, the session spend stays at 7. -/
theorem c10_send_token_amended_witness :
    (sendToken ⟨100, 100, none⟩ 7 2
      ⟨some 6, .present, ⟨.ok ⟨some ("sig"), .confirmed⟩, 1⟩, .present,
       ⟨.ok ⟨some ("sig2"), .confirmed⟩, 1⟩⟩).2.1 = 7 :=
  (c10_send_token_amended ⟨100, 100, none⟩ 7 2
    ⟨some 6, .present, ⟨.ok ⟨some ("sig"), .confirmed⟩, 1⟩, .present,
     ⟨.ok ⟨some ("sig2"), .confirmed⟩, 1⟩⟩ rfl
    (by intro e h; simp at h)).2.1

/-- Claim C4 is wrong about the code: loadKeystore zeroes the derived key
on every exit (the finally block), but the decrypted 64 byte plaintext
buffer is never zeroed on ANY exit after a successful decryption,
including the normal return, although the doc comment of loadKeystore
states the plaintext buffer is zeroed internally. This theorem evaluates
the code at a concrete failing input: a keystore created from a 64 byte
secret with passphrase correctpassword and reopened with the same
passphrase loads successfully while the plaintext buffer is still live. -/
theorem c4_load_keystore_plaintext_not_zeroed :
    (loadKeystore
        ((createKeystore ⟨List.range 64⟩ ("correctpassword")
            (List.replicate 32 1) (List.replicate 16 2)).outcome.toOption)
        ("correctpassword")).plainLive = true ∧
    (loadKeystore
        ((createKeystore ⟨List.range 64⟩ ("correctpassword")
            (List.replicate 32 1) (List.replicate 16 2)).outcome.toOption)
        ("correctpassword")).outcome = .ok ⟨List.range 64⟩ ∧
    (loadKeystore
        ((createKeystore ⟨List.range 64⟩ ("correctpassword")
            (List.replicate 32 1) (List.replicate 16 2)).outcome.toOption)
        ("correctpassword")).keyLive = false := by
  refine ⟨rfl, ?_, rfl⟩
  rfl

/-- Claim C5: the create and open round trip. For every 64 byte secret
key, every passphrase of at least 8 characters, and the fresh salt and IV
sampled at creation, opening the written keystore with the same passphrase
succeeds and returns a keypair with the same secret bytes and hence the
same public key. -/
theorem c5_keystore_roundtrip (kp : Keypair) (password : String)
    (salt iv : List Nat) (hlen : kp.secretKey.length = 64)
    (hpw : 8 ≤ password.length) (hsalt : salt.length = 32)
    (hiv : iv.length = 16) :
    ∃ ks kp2, (createKeystore kp password salt iv).outcome = .ok ks ∧
      (loadKeystore (some ks) password).outcome = .ok kp2 ∧
      kp2.secretKey = kp.secretKey ∧
      kp2.publicKeyBase58 = kp.publicKeyBase58 := by
  refine ⟨writtenKeystore kp password salt iv, kp, ?_, ?_, rfl, rfl⟩
  · unfold createKeystore writtenKeystore
    rw [if_neg (by omega)]
    rfl
  · unfold loadKeystore aesGcmDecrypt deriveKey writtenKeystore
    dsimp only
    rw [if_neg (by simp), if_neg (by simp [hsalt]), if_neg (by simp [hiv])]
    rw [if_pos rfl]
    dsimp only
    rw [if_neg (by simp [hlen])]
    rw [if_neg (by simp [Keypair.publicKeyBase58])]

/-- Witness for claim C5 at a concrete 64 byte secret and the passphrase
correctpassword of spec scenario 1. -/
theorem c5_keystore_roundtrip_witness :
    ∃ ks kp2,
      (createKeystore ⟨List.range 64⟩ ("correctpassword")
          (List.replicate 32 1) (List.replicate 16 2)).outcome = .ok ks ∧
      (loadKeystore (some ks) ("correctpassword")).outcome = .ok kp2 ∧
      kp2.secretKey = (⟨List.range 64⟩ : Keypair).secretKey ∧
      kp2.publicKeyBase58 = (⟨List.range 64⟩ : Keypair).publicKeyBase58 :=
  c5_keystore_roundtrip ⟨List.range 64⟩ ("correctpassword")
    (List.replicate 32 1) (List.replicate 16 2)
    (by decide) (by decide) (by decide) (by decide)

/-- Claim C6 counterexample: the uniform auth failure message of
loadKeystore is the fixed string Keystore decryption failed. Wrong
password or keystore has been tampered with. and the word password is a
substring of it. A keystore whose correct passphrase is the eight
character string password therefore yields, on a wrong passphrase, an
error message that DOES contain the correct passphrase as a substring,
refuting the literal containment clause of the claim. -/
theorem c6_error_contains_passphrase_counterexample :
    ∃ ks, (createKeystore ⟨List.range 64⟩ ("password")
        (List.replicate 32 1) (List.replicate 16 2)).outcome = .ok ks ∧
      ∃ e, (loadKeystore (some ks) ("wrongpassword99")).outcome = .error e ∧
        e.code = "INVALID_KEYSTORE" ∧
        strContainsSub e.msg ("password") = true := by
  refine ⟨_, rfl, ⟨"INVALID_KEYSTORE", invalidKeystoreDecryptMsg⟩, ?_, rfl, ?_⟩
  · rfl
  · decide

/-- Claim C6 as amended: loadKeystore fails with one and the same
INVALID_KEYSTORE error on a wrong passphrase and on a tampered
ciphertext, and the message is a fixed constant that depends on neither
the correct nor the attempted passphrase, so it can only contain a
passphrase that happens to be a substring of that constant. -/
theorem c6_uniform_error (kp : Keypair) (password wrongPw : String)
    (salt iv ct2 : List Nat) (hpw : 8 ≤ password.length)
    (hsalt : salt.length = 32) (hiv : iv.length = 16)
    (hw : wrongPw ≠ password) (hct : ct2 ≠ kp.secretKey) :
    ∀ ks, (createKeystore kp password salt iv).outcome = .ok ks →
      (loadKeystore (some ks) wrongPw).outcome =
        .error ⟨"INVALID_KEYSTORE", invalidKeystoreDecryptMsg⟩ ∧
      (loadKeystore
          (some { ks with encrypted := { ks.encrypted with ciphertext := ct2 } })
          password).outcome =
        .error ⟨"INVALID_KEYSTORE", invalidKeystoreDecryptMsg⟩ := by
  intro ks hks
  have hks2 : ks = writtenKeystore kp password salt iv := by
    unfold createKeystore at hks
    rw [if_neg (by omega)] at hks
    unfold writtenKeystore
    cases hks
    rfl
  subst hks2
  unfold writtenKeystore
  constructor
  · unfold loadKeystore aesGcmDecrypt deriveKey
    simp only [hsalt, hiv]
    rw [if_neg (by simp), if_neg (by simp), if_neg (by simp)]
    rw [if_neg (by simp [Ne.symm hw])]
  · unfold loadKeystore aesGcmDecrypt deriveKey
    simp only [hsalt, hiv]
    rw [if_neg (by simp), if_neg (by simp), if_neg (by simp)]
    rw [if_neg (by simp [Ne.symm hct])]

/-- Witness for the amended claim C6 at a concrete keystore: wrong
passphrase and one tampered ciphertext byte produce the identical error. -/
theorem c6_uniform_error_witness :
    (loadKeystore
        ((createKeystore ⟨List.range 64⟩ ("correctpassword")
            (List.replicate 32 1) (List.replicate 16 2)).outcome.toOption)
        ("totallyDifferent1")).outcome =
      .error ⟨"INVALID_KEYSTORE", invalidKeystoreDecryptMsg⟩ := by
  have h := c6_uniform_error ⟨List.range 64⟩ ("correctpassword")
    ("totallyDifferent1") (List.replicate 32 1) (List.replicate 16 2)
    (List.replicate 64 9) (by decide) (by decide) (by decide)
    (by decide) (by decide)
  have h2 := (h _ rfl).1
  exact h2

mutual

theorem sanitise_clean_value (v : Jx) (h : flatValue v = true) :
    hasForbiddenValue (sanitiseValue v) = false := by
  cases v with
  | obj o =>
    have h2 : flatFields o = true := by simpa [flatValue] using h
    simpa [sanitiseValue, hasForbiddenValue] using sanitise_clean_fields o h2
  | arr l =>
    have h2 : flatList l = true := by simpa [flatValue] using h
    simpa [sanitiseValue, hasForbiddenValue] using sanitise_clean_list l h2
  | nullv => simp [sanitiseValue, hasForbiddenValue]
  | boolv b => simp [sanitiseValue, hasForbiddenValue]
  | strv s => simp [sanitiseValue, hasForbiddenValue]
  | numv n => simp [sanitiseValue, hasForbiddenValue]

theorem sanitise_clean_list (l : JxList) (h : flatList l = true) :
    hasForbiddenList (sanitiseArr l) = false := by
  cases l with
  | nil => simp [sanitiseArr, hasForbiddenList]
  | cons x tl =>
    cases x with
    | arr a => simp [flatList] at h
    | obj o =>
      have h2 : flatFields o = true ∧ flatList tl = true := by
        simpa [flatList, flatValue, Bool.and_eq_true] using h
      simp [sanitiseArr, hasForbiddenList, hasForbiddenValue,
        sanitise_clean_fields o h2.1, sanitise_clean_list tl h2.2]
    | nullv =>
      have h2 : flatList tl = true := by
        simpa [flatList, flatValue, Bool.and_eq_true] using h
      simp [sanitiseArr, hasForbiddenList, hasForbiddenValue,
        sanitise_clean_list tl h2]
    | boolv b =>
      have h2 : flatList tl = true := by
        simpa [flatList, flatValue, Bool.and_eq_true] using h
      simp [sanitiseArr, hasForbiddenList, hasForbiddenValue,
        sanitise_clean_list tl h2]
    | strv s =>
      have h2 : flatList tl = true := by
        simpa [flatList, flatValue, Bool.and_eq_true] using h
      simp [sanitiseArr, hasForbiddenList, hasForbiddenValue,
        sanitise_clean_list tl h2]
    | numv n =>
      have h2 : flatList tl = true := by
        simpa [flatList, flatValue, Bool.and_eq_true] using h
      simp [sanitiseArr, hasForbiddenList, hasForbiddenValue,
        sanitise_clean_list tl h2]

theorem sanitise_clean_fields (f : JxFields) (h : flatFields f = true) :
    hasForbiddenFields (sanitiseDetails f) = false := by
  cases f with
  | fnil => simp [sanitiseDetails, hasForbiddenFields]
  | fcons k v tl =>
    have h2 : flatValue v = true ∧ flatFields tl = true := by
      simpa [flatFields, Bool.and_eq_true] using h
    by_cases hk : forbiddenKey k
    · simp [sanitiseDetails, hk, sanitise_clean_fields tl h2.2]
    · simp [sanitiseDetails, hk, hasForbiddenFields,
        sanitise_clean_value v h2.1, sanitise_clean_fields tl h2.2]

end

/-- Claim C7 counterexample: the sanitiser walks object fields and object
elements DIRECTLY inside arrays, but an object inside an array inside an
array is returned untouched, so a secretKey field nested two array levels
deep survives into the stored details_json. The claim fails at the
concrete input with fields a holding [[ object with field secretKey ]]. -/
theorem c7_nested_array_counterexample :
    hasForbiddenFields (storedDetails c7badTree) = true := by
  have hk : forbiddenKey ("secretKey") = true := by decide
  have ha : forbiddenKey ("a") = false := by decide
  simp [c7badTree, storedDetails, sanitiseDetails, sanitiseValue, sanitiseArr,
    hasForbiddenFields, hasForbiddenValue, hasForbiddenList, hk, ha]

/-- Claim C7 as amended: for every details tree containing no array
nested directly inside an array, the stored details_json contains no
field whose name matches the forbidden set, at any nesting depth through
objects and through single array levels, even when the input tree
contained such fields; the sanitiser is a pure function, so the input
tree is unchanged. -/
theorem c7_sanitise_amended (f : JxFields) (h : flatFields f = true) :
    hasForbiddenFields (storedDetails f) = false := by
  simpa [storedDetails] using sanitise_clean_fields f h

/-- Witness for the amended claim C7: a flat tree with forbidden fields at
the top level, in a nested object, and in an object directly inside an
array, all of which are stripped. -/
theorem c7_sanitise_amended_witness :
    flatFields c7goodTree = true ∧
    hasForbiddenFields (storedDetails c7goodTree) = false := by
  have hflat : flatFields c7goodTree = true := by
    simp [c7goodTree, flatFields, flatValue, flatList]
  exact ⟨hflat, c7_sanitise_amended c7goodTree hflat⟩

/-- Claim C8: getBestQuote races both adapters with all-settled semantics.
With both quotes settled it returns the one with the larger outAmount,
keeping jupiter, the adapter earlier in enumeration order, on a tie; with
exactly one success it returns that quote; with two failures it fails
with a single QUOTE_FAILED aggregating both messages. -/
theorem c8_get_best_quote (qj qo : Quote) (ej eo : String) :
    (∃ p, getBestQuote (.ok qj) (.ok qo) = .ok p ∧
      p.1.outAmount = max qj.outAmount qo.outAmount ∧
      (qo.outAmount ≤ qj.outAmount → p = (qj, "jupiter")) ∧
      (qj.outAmount < qo.outAmount → p = (qo, "orca"))) ∧
    getBestQuote (.ok qj) (.error eo) = .ok (qj, "jupiter") ∧
    getBestQuote (.error ej) (.ok qo) = .ok (qo, "orca") ∧
    getBestQuote (.error ej) (.error eo) =
      .error ⟨"QUOTE_FAILED", "All adapters failed to quote: " ++ ej ++ "; " ++ eo⟩ := by
  refine ⟨?_, ?_, ?_, ?_⟩
  · by_cases hcmp : qj.outAmount ≥ qo.outAmount
    · refine ⟨(qj, "jupiter"), by simp [getBestQuote, hcmp], ?_, fun _ => rfl, ?_⟩
      · simp [max_eq_left hcmp]
      · intro hlt; omega
    · refine ⟨(qo, "orca"), by simp [getBestQuote, hcmp], ?_, ?_, fun _ => rfl⟩
      · have : qj.outAmount ≤ qo.outAmount := by omega
        simp [max_eq_right this]
      · intro hle; omega
  · simp [getBestQuote]
  · simp [getBestQuote]
  · simp [getBestQuote, joinSemi, String.append_assoc]

/-- Witness for claim C8 at spec scenario 4: outAmount 9500000 from
jupiter against 9800000 from orca selects the orca quote; with orca
failing, the jupiter quote wins. -/
theorem c8_get_best_quote_witness :
    getBestQuote (.ok ⟨"SOL", "USDC", 1000000000, 9500000, "jupiter"⟩)
        (.ok ⟨"SOL", "USDC", 1000000000, 9800000, "orca"⟩) =
      .ok (⟨"SOL", "USDC", 1000000000, 9800000, "orca"⟩, "orca") ∧
    getBestQuote (.ok ⟨"SOL", "USDC", 1000000000, 9500000, "jupiter"⟩)
        (.error ("adapterUnavailable")) =
      .ok (⟨"SOL", "USDC", 1000000000, 9500000, "jupiter"⟩, "jupiter") := by
  constructor
  · obtain ⟨p, hp, _, _, hlt⟩ :=
      (c8_get_best_quote ⟨"SOL", "USDC", 1000000000, 9500000, "jupiter"⟩
        ⟨"SOL", "USDC", 1000000000, 9800000, "orca"⟩ "ej" "eo").1
    rw [hp, hlt (by decide)]
  · exact (c8_get_best_quote ⟨"SOL", "USDC", 1000000000, 9500000, "jupiter"⟩
      ⟨"SOL", "USDC", 1000000000, 9800000, "orca"⟩ "ej" ("adapterUnavailable")).2.1

/-- Claim C1 is wrong about the code, which contradicts its own log
message shutting down and the CLI hint that the agent will shut down at
the start of its next tick: the remote stop branch of the tick sets
this.status to stopped and writes the agent_stop row with reason Remote
stop signal received, but it never sets this.stopped, the flag the while
loop of start tests, so the driver runs a FURTHER tick after that event
(which observes the same signal again and writes a second agent_stop).
Evaluation at the failing input: a loop started at time 0 with a pending
system_stop_request of signal time 1000. -/
theorem c1_remote_stop_does_not_terminate :
    (runLoop stopSignalWorld 1 startedLoopSt).status = .stopped ∧
    (runLoop stopSignalWorld 1 startedLoopSt).log =
      [⟨.agent_stop, some ("Remote stop signal received"), 1⟩] ∧
    (runLoop stopSignalWorld 1 startedLoopSt).stopped = false ∧
    (runLoop stopSignalWorld 2 startedLoopSt).tickCount = 2 ∧
    (runLoop stopSignalWorld 2 startedLoopSt).log =
      [⟨.agent_stop, some ("Remote stop signal received"), 1⟩,
       ⟨.agent_stop, some ("Remote stop signal received"), 2⟩] := by
  refine ⟨rfl, rfl, rfl, rfl, rfl⟩

/-- Claim C9: the tick body is crash isolated. When the remote stop query
finds no signal and any of the gather, decide, execute or audit mapping
phases throws, the tick still returns normally: lastError records the
message, one audit row is written whose kind is limit_breach exactly when
the thrown code field is LIMIT_BREACH and agent_error otherwise, the
status stays running and the stop flag is untouched, so the driver
executes the next tick. The tick is a total function, the embedding of a
body wrapped in catch, so start never rejects. -/
theorem c9_tick_crash_isolation (st : LoopSt) (inp : TickOracle) (e : AgErr)
    (hsig : inp.stopSignalTime = none)
    (hbody : tickBody { st with tickCount := st.tickCount + 1 } inp = .error e)
    (hrun : st.status = .running) :
    tick st inp =
      { st with tickCount := st.tickCount + 1,
                lastError := some e.msg,
                log := st.log ++ [⟨classifyError e, some e.msg, st.tickCount + 1⟩] } ∧
    (tick st inp).status = .running ∧
    (tick st inp).stopped = st.stopped ∧
    (classifyError e = .limit_breach ↔ e.code = some ("LIMIT_BREACH")) ∧
    (st.stopped = false → ∀ (inputs : Nat → TickOracle) (n : Nat),
       runLoop inputs (n + 1) st = runLoop inputs n (tick st (inputs st.tickCount))) := by
  have hmain : tick st inp =
      { st with tickCount := st.tickCount + 1,
                lastError := some e.msg,
                log := st.log ++ [⟨classifyError e, some e.msg, st.tickCount + 1⟩] } := by
    simp [tick, hsig, tickTry, hbody]
  refine ⟨hmain, by rw [hmain]; exact hrun, by rw [hmain], ?_, ?_⟩
  · unfold classifyError
    by_cases hc : e.code = some ("LIMIT_BREACH")
    · simp [hc]
    · simp [hc]
  · intro hflag inputs n
    simp [runLoop, hflag]

/-- Witness for claim C9 at spec scenario 5: a fresh running loop whose
strategy decide phase throws Strategy exploded on tick 1 with no code
field; the tick completes with an agent_error row and status running. -/
theorem c9_tick_crash_isolation_witness :
    tick startedLoopSt
        ⟨none, .ok 0, .error ⟨"Strategy exploded on tick 1", none⟩, .ok none⟩ =
      { stopped := false, status := .running, tickCount := 1,
        lastError := some ("Strategy exploded on tick 1"), startedAtMs := 0,
        log := [⟨.agent_error, some ("Strategy exploded on tick 1"), 1⟩] } := by
  have h := (c9_tick_crash_isolation startedLoopSt
      ⟨none, .ok 0, .error ⟨"Strategy exploded on tick 1", none⟩, .ok none⟩
      ⟨"Strategy exploded on tick 1", none⟩ rfl rfl rfl).1
  rw [h]
  rfl
